import Mathlib

/-
Verification of the realtime chat/presence backend (a TypeScript repository).

The repository contains several parallel realtime modules; each namespace
below is a shallow embedding of one module, translated from its source file:

* `ChatRoom`  — the `/chatroom` websocket module (`setupChatRoom`,
  `handlePrivateMessage`): a registry `Map<userId, WebSocket[]>` supporting
  several simultaneous connections per user.
* `PostsWS`   — the `/postsWS` socket.io module (`web-socket.ts`): a registry
  `Map<number, OnlineUser>` holding at most one record per user.
* `ChatWS`    — the `/chatWS` websocket module (`setupChatWebSocket.ts`):
  per-connection subscription sets, `broadcastToChat`, `sendToUser`.
* `UsersWS`   — the `/usersWS` websocket module (`setupUsersWebSocket.ts`):
  `broadcastToAllExcept`, `sendToUser` (first match only), `handleSendMessage`.
* `UserSvc`   — the `UserService` class (web-socket services).
* `PlainChat` — the `/chat` websocket module (`сhat.ts`).

Transport effects are made observable: a send is modelled as an
`Except`-valued step (`error` when the underlying transport throws), and every
fan-out function returns the list of deliveries that succeeded, which the
source performs imperatively via `ws.send` inside `try/catch`.
-/

/-! ## JavaScript `Map` as an association list

The realtime modules keep their registries in JavaScript `Map`s.  A `Map` is
embedded as an association list in insertion order: `set` overwrites in place
or appends, `get` returns the first (unique) binding, `delete` drops the
binding.  -/

def jsMapGet [BEq κ] (m : List (κ × α)) (k : κ) : Option α :=
  (m.find? (fun p => p.1 == k)).map (fun p => p.2)

def jsMapSet [BEq κ] (m : List (κ × α)) (k : κ) (v : α) : List (κ × α) :=
  if m.any (fun p => p.1 == k) then
    m.map (fun p => if p.1 == k then (k, v) else p)
  else
    m ++ [(k, v)]

def jsMapDelete [BEq κ] (m : List (κ × α)) (k : κ) : List (κ × α) :=
  m.filter (fun p => !(p.1 == k))

/-- Number of bindings a key has; a well-formed `Map` state has at most one. -/
def keyCount [BEq κ] (m : List (κ × α)) (k : κ) : Nat :=
  (m.filter (fun p => p.1 == k)).length

theorem jsMapGet_jsMapSet_self [BEq κ] [LawfulBEq κ] (m : List (κ × α)) (k : κ) (v : α) :
    jsMapGet (jsMapSet m k v) k = some v := by
  induction m with
  | nil => simp [jsMapGet, jsMapSet]
  | cons p m ih =>
    obtain ⟨a, b⟩ := p
    by_cases hk : a = k
    · subst hk
      simp [jsMapGet, jsMapSet, List.find?]
    · rcases han : m.any (fun p => p.1 == k) with _ | _
      · have : ¬ ((a == k) = true) := by simp [hk]
        simp only [jsMapSet, List.any_cons, han, this, Bool.false_eq_true, if_false,
          Bool.or_false, if_neg this]
        simp only [jsMapSet, han, Bool.false_eq_true, if_false] at ih
        simpa [jsMapGet, List.find?, this] using ih
      · have : ¬ ((a == k) = true) := by simp [hk]
        simp only [jsMapSet, List.any_cons, han, Bool.or_true, if_true, List.map_cons,
          if_neg this]
        simp only [jsMapSet, han, if_true] at ih
        simpa [jsMapGet, List.find?, this] using ih

theorem jsMapGet_jsMapDelete_self [BEq κ] [LawfulBEq κ] (m : List (κ × α)) (k : κ) :
    jsMapGet (jsMapDelete m k) k = none := by
  induction m with
  | nil => simp [jsMapGet, jsMapDelete]
  | cons p m ih =>
    obtain ⟨a, b⟩ := p
    by_cases hk : a = k
    · subst hk
      simp only [jsMapDelete, List.filter_cons, beq_self_eq_true, Bool.not_true,
        Bool.false_eq_true, if_false]
      simp only [jsMapDelete] at ih
      exact ih
    · have : ¬ ((a == k) = true) := by simp [hk]
      simp only [jsMapDelete, List.filter_cons, this, Bool.not_eq_true']
      simp only [jsMapDelete] at ih
      simp only [beq_eq_false_iff_ne, ne_eq, hk, not_false_eq_true, if_true]
      simp only [jsMapGet, List.find?, this, Bool.false_eq_true, if_false] at ih ⊢
      exact ih

/-! ## `/chatroom` module (`setupChatRoom`): presence over a multi-connection registry

The module keeps `userConnections : Map<string, WebSocket[]>`.  On connect the
socket is pushed onto the user's array (the entry is created when absent); the
"user is now online" broadcast (`user_joined` plus the refreshed user list)
runs only when the array length is 1 after the push.  On close the socket is
removed by `indexOf`/`splice`; when the array becomes empty the entry is
deleted and the "user is now offline" broadcast (`user_left` plus the
refreshed list) runs.  For a single user this state is the connection array
plus the two broadcast counters; connections are named by opaque numeric
identities standing for the `WebSocket` objects.  -/

namespace ChatRoom

/-- Lifecycle events of one user's connections: a websocket handshake on
`/chatroom` (admission and identification are fused there — the connection is
rejected unless `userId` is present in the query string) and a socket close. -/
inductive RoomOp where
  | connect (c : Nat)
  | close (c : Nat)
deriving DecidableEq, Repr

/-- One user's slice of `userConnections` plus counters of the presence
transition broadcasts the handler has fired for this user.  The user has an
entry in the `Map` iff `conns` is non-empty (the entry is created on first
push and deleted when the array empties). -/
structure RoomUserState where
  conns : List Nat
  onlineEvents : Nat
  offlineEvents : Nat
deriving DecidableEq, Repr

def roomInit : RoomUserState := ⟨[], 0, 0⟩

/-- Array.prototype.indexOf on the connection array. -/
def wsIndexOf : List Nat → Nat → Option Nat
  | [], _ => none
  | a :: rest, c => if a = c then some 0 else (wsIndexOf rest c).map (· + 1)

/-- The close handler's `indexOf` followed by `splice(index, 1)`. -/
def spliceOut (l : List Nat) (c : Nat) : List Nat :=
  match wsIndexOf l c with
  | none => l
  | some i => l.eraseIdx i

/-- Connect: push the socket; broadcast the online transition iff the array
now has length 1 (`userConnections.get(userId)!.length === 1`). -/
def roomConnect (s : RoomUserState) (c : Nat) : RoomUserState :=
  let conns := s.conns ++ [c]
  { conns := conns
    onlineEvents := if conns.length = 1 then s.onlineEvents + 1 else s.onlineEvents
    offlineEvents := s.offlineEvents }

/-- Close: when the user still has an entry, splice this socket out; when the
array becomes empty, delete the entry and broadcast the offline transition.
A close for a user without an entry finds `userConnections.get(userId)`
undefined and does nothing. -/
def roomClose (s : RoomUserState) (c : Nat) : RoomUserState :=
  if s.conns.isEmpty then s
  else
    let conns := spliceOut s.conns c
    if conns.isEmpty then
      { conns := conns, onlineEvents := s.onlineEvents, offlineEvents := s.offlineEvents + 1 }
    else
      { conns := conns, onlineEvents := s.onlineEvents, offlineEvents := s.offlineEvents }

def roomStep (s : RoomUserState) (op : RoomOp) : RoomUserState :=
  match op with
  | .connect c => roomConnect s c
  | .close c => roomClose s c

def roomRun : RoomUserState → List RoomOp → RoomUserState
  | s, [] => s
  | s, op :: ops => roomRun (roomStep s op) ops

/-- Presence is derived purely from the in-memory registry: the user is online
iff their connection array is non-empty (equivalently, iff
`userConnections.has(userId)`). -/
def RoomUserState.isOnline (s : RoomUserState) : Bool := !s.conns.isEmpty

/-- Modelled from the spec's words, for comparison with the registry: the
"identified, not-yet-removed connections" of the user after a sequence of
operations — every admitted connection that no removal has taken away yet. -/
def specOpenConnections : List Nat → List RoomOp → List Nat
  | l, [] => l
  | l, .connect c :: ops => specOpenConnections (l ++ [c]) ops
  | l, .close c :: ops => specOpenConnections (l.erase c) ops

theorem spliceOut_eq_erase (l : List Nat) (c : Nat) : spliceOut l c = l.erase c := by
  induction l with
  | nil => simp [spliceOut, wsIndexOf]
  | cons a rest ih =>
    by_cases hc : a = c
    · subst hc
      simp [spliceOut, wsIndexOf, List.erase_cons]
    · have hbc : (a == c) = false := by simp [hc]
      rcases hidx : wsIndexOf rest c with _ | i
      · have : spliceOut rest c = rest := by simp [spliceOut, hidx]
        rw [this] at ih
        simp [spliceOut, wsIndexOf, hc, hidx, List.erase_cons, hbc, ← ih]
      · have : spliceOut rest c = rest.eraseIdx i := by simp [spliceOut, hidx]
        rw [this] at ih
        simp [spliceOut, wsIndexOf, hc, hidx, List.erase_cons, hbc, ← ih]

theorem roomStep_conns (s : RoomUserState) (op : RoomOp) :
    (roomStep s op).conns = specOpenConnections s.conns [op] := by
  cases op with
  | connect c => rfl
  | close c =>
    rcases hconns : s.conns with _ | ⟨a, rest⟩
    · simp [roomStep, roomClose, specOpenConnections, hconns]
    · simp only [roomStep, roomClose, hconns, List.isEmpty_cons, Bool.false_eq_true, if_false,
        specOpenConnections, spliceOut_eq_erase]
      by_cases he : (List.erase (a :: rest) c).isEmpty <;> simp [he]

theorem roomRun_conns (ops : List RoomOp) :
    ∀ s : RoomUserState, (roomRun s ops).conns = specOpenConnections s.conns ops := by
  induction ops with
  | nil => intro s; rfl
  | cons op ops ih =>
    intro s
    have hstep := roomStep_conns s op
    cases op with
    | connect c =>
      simp only [roomRun, specOpenConnections]
      rw [ih (roomStep s (RoomOp.connect c))]
      rfl
    | close c =>
      simp only [roomRun, specOpenConnections]
      rw [ih (roomStep s (RoomOp.close c))]
      rw [show (roomStep s (RoomOp.close c)).conns = s.conns.erase c from by
        simpa [specOpenConnections] using hstep]

/-- C1.  In the `/chatroom` registry, for every sequence of connection
admissions (which identify the user at handshake time) and removals for a
single user, the user is online iff they have more than zero identified,
not-yet-removed connections; and in the two-tab example the online-transition
broadcast fires once at the first connection, opening a second connection
fires no new one, closing the first of two connections leaves the user
online, and closing the last connection makes the user offline with exactly
one offline-transition broadcast fired in total. -/
theorem chatroom_presence_invariant :
    (∀ ops : List RoomOp,
      ((roomRun roomInit ops).isOnline = true
        ↔ 0 < (specOpenConnections [] ops).length))
    ∧ (roomRun roomInit [RoomOp.connect 1]).isOnline = true
    ∧ (roomRun roomInit [RoomOp.connect 1]).onlineEvents = 1
    ∧ (roomRun roomInit [RoomOp.connect 1, RoomOp.connect 2]).onlineEvents = 1
    ∧ (roomRun roomInit [RoomOp.connect 1, RoomOp.connect 2, RoomOp.close 1]).isOnline = true
    ∧ (roomRun roomInit
        [RoomOp.connect 1, RoomOp.connect 2, RoomOp.close 1, RoomOp.close 2]).isOnline = false
    ∧ (roomRun roomInit
        [RoomOp.connect 1, RoomOp.connect 2, RoomOp.close 1, RoomOp.close 2]).offlineEvents = 1
    ∧ (roomRun roomInit
        [RoomOp.connect 1, RoomOp.connect 2, RoomOp.close 1, RoomOp.close 2]).onlineEvents = 1 := by
  refine ⟨fun ops => ?_, by decide, by decide, by decide, by decide, by decide, by decide,
    by decide⟩
  have h := roomRun_conns ops roomInit
  unfold RoomUserState.isOnline
  rw [show roomInit.conns = ([] : List Nat) from rfl] at h
  rw [h]
  cases specOpenConnections [] ops <;> simp

end ChatRoom

theorem keyCount_append [BEq κ] (n : List (κ × α)) (o : List (κ × α)) (j : κ) :
    keyCount (n ++ o) j = keyCount n j + keyCount o j := by
  simp [keyCount, List.filter_append]

theorem keyCount_eq_zero_of_any_eq_false [BEq κ] (m : List (κ × α)) (k : κ)
    (h : m.any (fun p => p.1 == k) = false) : keyCount m k = 0 := by
  induction m with
  | nil => rfl
  | cons p m ih =>
    simp only [List.any_cons, Bool.or_eq_false_iff] at h
    have htail := ih h.2
    simp only [keyCount, List.filter_cons, h.1, Bool.false_eq_true, if_false]
    simpa [keyCount] using htail

theorem keyCount_jsMapSet_overwrite [BEq κ] [LawfulBEq κ] (m : List (κ × α)) (k j : κ) (v : α) :
    keyCount (m.map (fun p => if p.1 == k then (k, v) else p)) j = keyCount m j := by
  induction m with
  | nil => rfl
  | cons p m ih =>
    obtain ⟨a, b⟩ := p
    by_cases hak : a = k
    · subst hak
      simp only [List.map_cons, beq_self_eq_true, if_true, keyCount, List.filter_cons]
      simp only [keyCount] at ih
      by_cases haj : (a == j) = true <;> simp [haj, ih]
    · have hbk : (a == k) = false := by simp [hak]
      simp only [List.map_cons, hbk, Bool.false_eq_true, if_false, keyCount, List.filter_cons]
      simp only [keyCount] at ih
      by_cases haj : (a == j) = true <;> simp [haj, ih]

theorem keyCount_jsMapDelete_le [BEq κ] (m : List (κ × α)) (k j : κ) :
    keyCount (jsMapDelete m k) j ≤ keyCount m j := by
  induction m with
  | nil => exact Nat.le_refl 0
  | cons p m ih =>
    by_cases hd : (!(p.1 == k)) = true
    · by_cases hj : (p.1 == j) = true
      · simpa [keyCount, jsMapDelete, List.filter_cons, hd, hj] using ih
      · simpa [keyCount, jsMapDelete, List.filter_cons, hd, hj] using ih
    · by_cases hj : (p.1 == j) = true
      · simp only [jsMapDelete, List.filter_cons, hd, Bool.false_eq_true, if_false]
        simp only [jsMapDelete] at ih
        calc keyCount (List.filter (fun p => !(p.1 == k)) m) j ≤ keyCount m j := ih
          _ ≤ keyCount ((p.1, p.2) :: m) j := by simp [keyCount, List.filter_cons, hj]
      · simp only [jsMapDelete, List.filter_cons, hd, Bool.false_eq_true, if_false]
        simp only [jsMapDelete] at ih
        calc keyCount (List.filter (fun p => !(p.1 == k)) m) j ≤ keyCount m j := ih
          _ ≤ keyCount ((p.1, p.2) :: m) j := by simp [keyCount, List.filter_cons, hj]

theorem keyCount_jsMapSet_le_one [BEq κ] [LawfulBEq κ] (m : List (κ × α)) (k j : κ) (v : α)
    (h : ∀ i, keyCount m i ≤ 1) : keyCount (jsMapSet m k v) j ≤ 1 := by
  rcases han : m.any (fun p => p.1 == k) with _ | _
  · by_cases hkj : (k == j) = true
    · have hkj' : k = j := by simpa using hkj
      subst hkj'
      have h0 : keyCount m k = 0 := keyCount_eq_zero_of_any_eq_false m k han
      rw [jsMapSet, if_neg (by simp [han]), keyCount_append, h0]
      simp [keyCount, List.filter_cons]
    · rw [jsMapSet, if_neg (by simp [han]), keyCount_append]
      have hone : keyCount [(k, v)] j = 0 := by
        simp [keyCount, List.filter_cons, hkj]
      rw [hone]
      simpa using h j
  · simpa [jsMapSet, han, keyCount_jsMapSet_overwrite] using h j

/-! ## `/postsWS` module (`web-socket.ts`): single-record presence registry

This socket.io namespace keeps `onlineUsers : Map<number, OnlineUser>` — a
single record per user id.  On connection with a `userId` cookie the handler
updates the durable row inside its own try/catch, then unconditionally does
`onlineUsers.set(userId, ...)` and, when the user row was found, emits
`USER_ONLINE`.  On disconnect of a socket whose closure captured a `userId`,
it deletes the user's entry and emits `USER_OFFLINE` without consulting any
other connection of that user. -/

namespace PostsWS

/-- The record stored per online user (`userData` is a durable-row snapshot
with no registry semantics and is omitted). -/
structure OnlineUser where
  socketId : String
  userId : Nat
  connectedAt : Nat
deriving DecidableEq, Repr

structure PwsState where
  onlineUsers : List (Nat × OnlineUser)
  onlineEmits : Nat
  offlineEmits : Nat
deriving DecidableEq, Repr

def pwsInit : PwsState := ⟨[], 0, 0⟩

/-- Connection handler once the cookie yields a `userId`: the durable update
runs first inside its own try/catch (failure only logged), then
`onlineUsers.set(userId, ...)` unconditionally, then the `USER_ONLINE` emit
(guarded by the user row having been found). -/
def pwsConnect (s : PwsState) (u : Nat) (sock : String) (t : Nat) (userFound : Bool) : PwsState :=
  { onlineUsers := jsMapSet s.onlineUsers u ⟨sock, u, t⟩
    onlineEmits := if userFound then s.onlineEmits + 1 else s.onlineEmits
    offlineEmits := s.offlineEmits }

/-- Disconnect handler: when the closure's `userId` is set, delete the user's
entry and emit `USER_OFFLINE`, regardless of any other open connection. -/
def pwsDisconnect (s : PwsState) (u : Option Nat) : PwsState :=
  match u with
  | none => s
  | some uid =>
    { onlineUsers := jsMapDelete s.onlineUsers uid
      onlineEmits := s.onlineEmits
      offlineEmits := s.offlineEmits + 1 }

inductive PwsOp where
  | connect (u : Nat) (sock : String) (t : Nat) (userFound : Bool)
  | disconnect (u : Option Nat)

def pwsStep (s : PwsState) : PwsOp → PwsState
  | .connect u sock t f => pwsConnect s u sock t f
  | .disconnect u => pwsDisconnect s u

def pwsRun : PwsState → List PwsOp → PwsState
  | s, [] => s
  | s, op :: ops => pwsRun (pwsStep s op) ops

theorem pwsRun_keyCount_le (ops : List PwsOp) :
    ∀ s : PwsState, (∀ k, keyCount s.onlineUsers k ≤ 1) →
      ∀ k, keyCount ((pwsRun s ops).onlineUsers) k ≤ 1 := by
  induction ops with
  | nil => intro s h k; exact h k
  | cons op ops ih =>
    intro s h k
    refine ih (pwsStep s op) ?_ k
    intro j
    cases op with
    | connect u sock t f =>
      exact keyCount_jsMapSet_le_one s.onlineUsers u j _ h
    | disconnect u =>
      cases u with
      | none => exact h j
      | some uid =>
        exact Nat.le_trans (keyCount_jsMapDelete_le s.onlineUsers uid j) (h j)

/-- C8.  The `/postsWS` registry keeps at most one connection record per user
in every reachable state; identifying a second simultaneous connection of the
same user overwrites the stored record (socketId included) of the first; and
the disconnect of any identified connection of the user deletes the user's
entry entirely and fires one `USER_OFFLINE` broadcast, regardless of whether
the user still has another open connection. -/
theorem postsws_registry_single_entry :
    (∀ ops : List PwsOp, ∀ k, keyCount ((pwsRun pwsInit ops).onlineUsers) k ≤ 1)
    ∧ (∀ (s : PwsState) (u : Nat) (a c : String) (b d : Nat) (f g : Bool),
        jsMapGet ((pwsConnect (pwsConnect s u a b f) u c d g).onlineUsers) u
          = some ⟨c, u, d⟩)
    ∧ (∀ (s : PwsState) (u : Nat),
        jsMapGet ((pwsDisconnect s (some u)).onlineUsers) u = none
        ∧ (pwsDisconnect s (some u)).offlineEmits = s.offlineEmits + 1) := by
  refine ⟨fun ops k => pwsRun_keyCount_le ops pwsInit (fun _ => Nat.le_succ 0) k,
    fun s u a c b d f g => ?_, fun s u => ⟨?_, rfl⟩⟩
  · exact jsMapGet_jsMapSet_self _ u _
  · exact jsMapGet_jsMapDelete_self _ u

end PostsWS

/-! ## `/chatWS` module (`setupChatWebSocket.ts`)

Connections live in a global array `userConnections`; each carries an optional
`userId` (from the cookie), a `subscribedChats` set, and its `ws` handle.  The
handle is embedded as two flags: `readyStateOpen` (whether
`ws.readyState === WebSocket.OPEN`) and `sendThrows` (whether `ws.send`
raises).  Serialization (`JSON.stringify`) is embedded as a fixed total
rendering `serializeChatMsg`; the claims depend only on it being computed once
per fan-out and handed unchanged to every send.  Fan-out functions return the
list of successful deliveries `(connId, payload)`, which the source performs
imperatively; their totality reflects that every `ws.send` sits in a
`try/catch`, so no exception escapes them. -/

namespace ChatWS

/-- Envelope `BroadcastChatMessage` of the module (the `message` payload field
is itself a persisted record and is not inspected by any fan-out path). -/
structure BroadcastChatMessage where
  type : String
  messageId : Option String
  chatId : Option String
  userId : Option Nat
  isTyping : Option Bool
  timestamp : Option Nat
  error : Option String
deriving DecidableEq, Repr

/-- JSON.stringify stand-in: a fixed total rendering of the envelope. -/
def serializeChatMsg (m : BroadcastChatMessage) : String :=
  String.intercalate ";" [m.type, m.messageId.getD "", m.chatId.getD "",
    toString (m.userId.getD 0), toString (m.isTyping.getD false),
    toString (m.timestamp.getD 0), m.error.getD ""]

/-- One entry of `userConnections`; `connId` names the `ws` object. -/
structure UserConnection where
  connId : Nat
  userId : Option Nat
  connectedAt : Nat
  subscribedChats : List String
  readyStateOpen : Bool
  sendThrows : Bool
deriving DecidableEq, Repr

/-- Raw `ws.send`: raises iff the transport is broken. -/
def wsSend (c : UserConnection) (_payload : String) : Except String Unit :=
  if c.sendThrows then Except.error "send failed" else Except.ok ()

/-- Set.prototype.add on the subscription set. -/
def setAdd (l : List String) (x : String) : List String :=
  if l.contains x then l else l ++ [x]

/-- subscribeToChat: adds the chat to the connection's set unconditionally —
the function performs no membership check and cannot fail. -/
def subscribeToChat (c : UserConnection) (chatId : String) : UserConnection :=
  { c with subscribedChats := setAdd c.subscribedChats chatId }

/-- Durable chat store visible to this module: the chat table, the
chat-member table, and whether the `findMany` call throws. -/
structure ChatDb where
  chats : List String
  members : List (String × Nat)
  findFails : Bool
deriving DecidableEq, Repr

/-- The Chat Persistence Gateway's membership check (`isMember`). -/
def isMember (db : ChatDb) (chatId : String) (u : Nat) : Bool :=
  db.members.contains (chatId, u)

/-- autoSubscribeToUserChats: looks up the chats whose members include the
connection's user (`prisma.chat.findMany` filtered by membership) and
subscribes the connection to each; a query failure is caught and subscribes
to nothing; an anonymous connection returns immediately. -/
def autoSubscribeToUserChats (db : ChatDb) (c : UserConnection) : UserConnection :=
  match c.userId with
  | none => c
  | some u =>
    if db.findFails then c
    else (db.chats.filter (fun cid => isMember db cid u)).foldl subscribeToChat c

/-- The reverse subscriber view `broadcastToChat` iterates: connections whose
`subscribedChats` contain the conversation. -/
def subscribersOf (conns : List UserConnection) (chatId : String) : List Nat :=
  (conns.filter (fun c => c.subscribedChats.contains chatId)).map (fun c => c.connId)

/-- A connection that actually receives a broadcast for `chatId`: subscribed,
open, and its transport does not throw. -/
def chatDeliverable (chatId : String) (c : UserConnection) : Bool :=
  c.subscribedChats.contains chatId && c.readyStateOpen && !c.sendThrows

/-- The `userConnections.forEach` loop of `broadcastToChat`: skip
non-subscribed and non-open connections; send inside try/catch, counting only
successful sends and never aborting the loop. -/
def broadcastLoop : List UserConnection → String → String → Nat × List (Nat × String)
  | [], _, _ => (0, [])
  | c :: rest, chatId, messageString =>
    if c.subscribedChats.contains chatId && c.readyStateOpen then
      match wsSend c messageString with
      | .ok _ =>
        let r := broadcastLoop rest chatId messageString
        (r.1 + 1, (c.connId, messageString) :: r.2)
      | .error _ => broadcastLoop rest chatId messageString
    else broadcastLoop rest chatId messageString

/-- broadcastToChat: serializes the envelope once, then runs the loop; the
return value is the subscriber count of successful sends together with the
deliveries performed. -/
def broadcastToChat (conns : List UserConnection) (chatId : String)
    (message : BroadcastChatMessage) : Nat × List (Nat × String) :=
  broadcastLoop conns chatId (serializeChatMsg message)

theorem broadcastLoop_eq (conns : List UserConnection) (chatId payload : String) :
    broadcastLoop conns chatId payload
      = ((conns.filter (chatDeliverable chatId)).length,
         (conns.filter (chatDeliverable chatId)).map (fun c => (c.connId, payload))) := by
  induction conns with
  | nil => rfl
  | cons c rest ih =>
    by_cases hsub : chatId ∈ c.subscribedChats <;>
      cases hopen : c.readyStateOpen <;>
      cases hthrow : c.sendThrows <;>
      simp [broadcastLoop, wsSend, chatDeliverable, hsub, hopen, hthrow, ih, List.filter_cons]

/-- Subscriber X of the C2 example: open, working transport. -/
def connX : UserConnection := ⟨10, some 1, 0, ["c1"], true, false⟩

/-- Subscriber Y of the C2 example: open, but its transport throws on send. -/
def connY : UserConnection := ⟨11, some 2, 0, ["c1"], true, true⟩

/-- C2.  `broadcastToChat` serializes the envelope once and hands that one
string to every recipient, skips subscribers that are no longer open, catches
per-recipient send failures without aborting the loop (the function is total,
so no exception escapes it), and returns exactly the number of successful
sends; in particular with subscribers `[X, Y]` where Y's transport throws,
the count is 1 and X still receives the envelope. -/
theorem chatws_broadcast_partial_failure :
    (∀ (conns : List UserConnection) (chatId : String) (m : BroadcastChatMessage),
      broadcastToChat conns chatId m
        = ((conns.filter (chatDeliverable chatId)).length,
           (conns.filter (chatDeliverable chatId)).map
             (fun c => (c.connId, serializeChatMsg m))))
    ∧ (∀ m : BroadcastChatMessage,
        (broadcastToChat [connX, connY] "c1" m).1 = 1
        ∧ (broadcastToChat [connX, connY] "c1" m).2 = [(10, serializeChatMsg m)]) := by
  have hmain : ∀ (conns : List UserConnection) (chatId : String) (m : BroadcastChatMessage),
      broadcastToChat conns chatId m
        = ((conns.filter (chatDeliverable chatId)).length,
           (conns.filter (chatDeliverable chatId)).map
             (fun c => (c.connId, serializeChatMsg m))) := by
    intro conns chatId m
    exact broadcastLoop_eq conns chatId (serializeChatMsg m)
  refine ⟨hmain, fun m => ?_⟩
  have hfilter : [connX, connY].filter (chatDeliverable "c1") = [connX] := by decide
  rw [hmain [connX, connY] "c1" m, hfilter]
  exact ⟨rfl, rfl⟩

end ChatWS

namespace ChatWS

/-- A connection of user `u` that a `sendToUser` fan-out actually reaches:
identified as `u`, open, and its transport does not throw. -/
def userDeliverable (u : Nat) (c : UserConnection) : Bool :=
  (c.userId == some u) && c.readyStateOpen && !c.sendThrows

/-- The `userConnections.forEach` loop of this module's `sendToUser`: every
connection whose `userId` matches and whose socket is open is sent to, inside
try/catch, counting successful sends. -/
def sendToUserLoop : List UserConnection → Nat → String → Nat × List (Nat × String)
  | [], _, _ => (0, [])
  | c :: rest, u, payload =>
    if (c.userId == some u) && c.readyStateOpen then
      match wsSend c payload with
      | .ok _ =>
        let r := sendToUserLoop rest u payload
        (r.1 + 1, (c.connId, payload) :: r.2)
      | .error _ => sendToUserLoop rest u payload
    else sendToUserLoop rest u payload

/-- sendToUser of `setupChatWebSocket.ts`: serializes once, loops over all of
the user's connections (several tabs), and returns whether at least one send
succeeded (`sentCount === 0` yields false). -/
def sendToUser (conns : List UserConnection) (u : Nat) (m : BroadcastChatMessage) :
    Bool × List (Nat × String) :=
  let r := sendToUserLoop conns u (serializeChatMsg m)
  (r.1 != 0, r.2)

theorem sendToUserLoop_eq (conns : List UserConnection) (u : Nat) (payload : String) :
    sendToUserLoop conns u payload
      = ((conns.filter (userDeliverable u)).length,
         (conns.filter (userDeliverable u)).map (fun c => (c.connId, payload))) := by
  induction conns with
  | nil => rfl
  | cons c rest ih =>
    cases hid : c.userId == some u <;>
      cases hopen : c.readyStateOpen <;>
      cases hthrow : c.sendThrows <;>
      simp [sendToUserLoop, wsSend, userDeliverable, hid, hopen, hthrow, ih, List.filter_cons]

/-- A connection of a user who is a member of no chat at all. -/
def nonMemberConn : UserConnection := ⟨0, some 1, 0, [], true, false⟩

/-- A chat store with no chats and no members. -/
def emptyChatDb : ChatDb := ⟨[], [], false⟩

/-- C4 counterexample.  `subscribeToChat` performs no membership check and
cannot fail: called for a user who is a member of no conversation (the store
is empty, so `isMember` is false), it still adds the conversation to the
connection's set, and `subscribersOf` then lists that connection — refuting
both "fails with NotAMember" and "a rejected subscribe never adds the
connection to the conversation's subscriber index". -/
theorem chatws_subscribe_unchecked_cex :
    isMember emptyChatDb "c1" 1 = false
    ∧ (subscribeToChat nonMemberConn "c1").subscribedChats = ["c1"]
    ∧ subscribersOf [subscribeToChat nonMemberConn "c1"] "c1" = [0] := by
  refine ⟨rfl, rfl, rfl⟩

theorem foldl_subscribeToChat_mem (l : List String) (c : UserConnection) (x : String)
    (hx : x ∈ (l.foldl subscribeToChat c).subscribedChats) :
    x ∈ c.subscribedChats ∨ x ∈ l := by
  induction l generalizing c with
  | nil => exact Or.inl hx
  | cons a l ih =>
    rcases ih (subscribeToChat c a) hx with h | h
    · by_cases hc : c.subscribedChats.contains a
      · simp only [subscribeToChat, setAdd, hc, if_true] at h
        exact Or.inl h
      · simp only [subscribeToChat, setAdd, hc, Bool.false_eq_true, if_false] at h
        rcases List.mem_append.mp h with h | h
        · exact Or.inl h
        · simp only [List.mem_singleton] at h
          exact Or.inr (by rw [h]; exact List.mem_cons_self a l)
    · exact Or.inr (List.mem_cons_of_mem a h)

/-- C4 amended.  The module never rejects a subscription: `subscribeToChat`
adds unconditionally (see the counterexample).  Membership is enforced only
by the caller `autoSubscribeToUserChats`, which queries the store and
subscribes the connection exactly to chats its user is a member of — so
every chat a connection acquires through that path is either one it already
had or one its (identified) user verifiably belongs to. -/
theorem chatws_autosubscribe_only_member_chats :
    ∀ (db : ChatDb) (c : UserConnection),
      ((autoSubscribeToUserChats db c).subscribedChats.all (fun cid =>
        c.subscribedChats.contains cid ||
          (match c.userId with
           | some u => isMember db cid u
           | none => false))) = true := by
  intro db c
  rw [List.all_eq_true]
  intro cid hcid
  cases hu : c.userId with
  | none =>
    simp only [autoSubscribeToUserChats, hu] at hcid
    simp
    exact hcid
  | some u =>
    simp only [autoSubscribeToUserChats, hu] at hcid
    by_cases hdb : db.findFails
    · simp only [hdb, if_true] at hcid
      simp
      exact Or.inl hcid
    · rw [if_neg hdb] at hcid
      rcases foldl_subscribeToChat_mem _ c cid hcid with h | h
      · simp
        exact Or.inl h
      · have hpred := List.of_mem_filter h
        simp
        exact Or.inr (by simpa using hpred)

end ChatWS

namespace ChatWS

/-- Inbound `ChatMessageData` shape; a payload that fails `JSON.parse` has no
such value, which the handler embedding receives as `none`. -/
structure ChatMessageData where
  type : String
  chatId : Option String
  messageId : Option String
deriving DecidableEq, Repr

/-- The error envelope built in the message handler's catch branch. -/
def invalidFormatMessage (t : Nat) : BroadcastChatMessage :=
  ⟨"error", none, none, none, none, some t, some "Invalid message format"⟩

/-- The `ws.on('message')` handler of `setupChatWebSocket.ts`: a payload that
parses is only logged (the `handleChatMessage` call is commented out in the
source); a payload that fails to parse is answered with the
"Invalid message format" error envelope via `sendToClient(ws, ...)`, which
sends only when the originating socket is open and delivers only when its
transport does not throw.  The handler touches no connection state: the
registry is returned unchanged, and the only possible delivery targets the
originating connection. -/
def chatWsOnMessage (conns : List UserConnection) (origin : UserConnection)
    (parsed : Option ChatMessageData) (t : Nat) :
    List UserConnection × List (Nat × String) :=
  match parsed with
  | some _ => (conns, [])
  | none =>
    if origin.readyStateOpen && !origin.sendThrows then
      (conns, [(origin.connId, serializeChatMsg (invalidFormatMessage t))])
    else (conns, [])

/-- The connect flow of `setupChatWebSocket.ts` as it affects the registry:
`userConnections.push(userConnection)` runs first, synchronously; then, for an
identified user, the durable `isOnline` write is awaited inside try/catch and
only on success the connection object is auto-subscribed to the user's chats
(the catch skips auto-subscribe and the online broadcasts but removes
nothing).  The registry therefore contains the new connection whether or not
the durable write fails. -/
def chatWsOnConnect (conns : List UserConnection) (c : UserConnection) (db : ChatDb)
    (updateFails : Bool) : List UserConnection :=
  let pushed := conns ++ [c]
  match c.userId with
  | none => pushed
  | some _ =>
    if updateFails then pushed
    else pushed.map (fun x => if x.connId == c.connId then autoSubscribeToUserChats db x else x)

end ChatWS

/-! ## `/usersWS` module (`setupUsersWebSocket.ts`)

Connections live in a global array; each carries an optional `userId` and its
`ws` handle, embedded as in `ChatWS`.  This module's `sendToUser` resolves the
target by `userConnections.find(...)` — the first matching connection only —
and `broadcastToAllExcept` filters out every connection whose `userId` equals
the excluded user's id before sending. -/

namespace UsersWS

/-- One entry of this module's `userConnections` array. -/
structure UConn where
  connId : Nat
  userId : Option Nat
  connectedAt : Nat
  readyStateOpen : Bool
  sendThrows : Bool
deriving DecidableEq, Repr

/-- Raw `ws.send` of this module: raises iff the transport is broken. -/
def uSend (c : UConn) (_payload : String) : Except String Unit :=
  if c.sendThrows then Except.error "send failed" else Except.ok ()

/-- sendToUser of `setupUsersWebSocket.ts`: `userConnections.find(conn =>
conn.userId === userId)` picks the FIRST matching connection; when it is open
the payload is sent to it inside try/catch, otherwise (or when no connection
matches) nothing is sent — later connections of the same user are never
considered. -/
def sendToUser (conns : List UConn) (u : Nat) (payload : String) : List (Nat × String) :=
  match conns.find? (fun c => c.userId == some u) with
  | some c =>
    if c.readyStateOpen then
      match uSend c payload with
      | .ok _ => [(c.connId, payload)]
      | .error _ => []
    else []
  | none => []

/-- broadcastToAllExcept: keep the connections whose `userId` differs from the
excluded user's, then send to each open one inside try/catch; the returned
list holds the connections actually delivered to. -/
def broadcastToAllExcept (conns : List UConn) (u : Nat) : List UConn :=
  (conns.filter (fun c => c.userId != some u)).filter
    (fun c => c.readyStateOpen && !c.sendThrows)

/-- The `user_online` presence broadcast of the connect flow: it runs inside
the try block after the durable update, so a durable failure suppresses it;
when it runs it goes through `broadcastToAllExcept(userId, ...)`. -/
def onlinePresenceRecipients (conns : List UConn) (u : Nat) (dbFails : Bool) : List UConn :=
  if dbFails then [] else broadcastToAllExcept conns u

/-- The `user_offline` presence broadcast of the close handler: only for an
identified connection, inside the try block after the durable update, through
`broadcastToAllExcept(userConnection.userId, ...)`. -/
def offlinePresenceRecipients (conns : List UConn) (u : Option Nat) (dbFails : Bool) :
    List UConn :=
  match u with
  | none => []
  | some uid => if dbFails then [] else broadcastToAllExcept conns uid

/-- Message payload of a `send_message` request. -/
structure SendMessageData where
  content : String
  receiverId : Nat
  senderId : Nat
deriving DecidableEq, Repr

/-- Durable-store oracle for `handleSendMessage`: whether each awaited call
throws. -/
structure UsersDb where
  chatFindFails : Bool
  createFails : Bool
  updateFails : Bool
deriving DecidableEq, Repr

/-- Observable outcome of one `handleSendMessage` call. -/
structure SendOutcome where
  persisted : Bool
  receiverSends : List (Nat × String)
  senderErrored : Bool
deriving DecidableEq, Repr

/-- A fixed rendering standing for `JSON.stringify` of the `new_message`
envelope built from the persisted record. -/
def newMessagePayload (m : SendMessageData) : String :=
  String.intercalate ";" ["new_message", m.content, toString m.senderId, toString m.receiverId]

/-- handleSendMessage of `setupUsersWebSocket.ts`, step for step: missing
`messageData` or falsy `content`/`receiverId`/`senderId` answer the sender
with an error envelope; then, inside try/catch,
`getOrCreateDirectChat` (throw caught → error to sender),
`prisma.message.create` (throw caught → error to sender, nothing persisted),
`prisma.chat.update` (throw caught → error to sender, message already
persisted), and only then `sendToUser(receiverId, new_message)`.  The
`persisted` flag records whether the `message.create` call committed. -/
def handleSendMessage (db : UsersDb) (conns : List UConn)
    (msg : Option SendMessageData) : SendOutcome :=
  match msg with
  | none => ⟨false, [], true⟩
  | some m =>
    if m.content = "" || m.receiverId = 0 || m.senderId = 0 then ⟨false, [], true⟩
    else if db.chatFindFails then ⟨false, [], true⟩
    else if db.createFails then ⟨false, [], true⟩
    else if db.updateFails then ⟨true, [], true⟩
    else ⟨true, sendToUser conns m.receiverId (newMessagePayload m), false⟩

end UsersWS

theorem jsMapSet_any_self [BEq κ] [LawfulBEq κ] (m : List (κ × α)) (k : κ) (v : α) :
    (jsMapSet m k v).any (fun p => p.1 == k) = true := by
  have h := jsMapGet_jsMapSet_self m k v
  unfold jsMapGet at h
  rcases hf : (jsMapSet m k v).find? (fun p => p.1 == k) with _ | q
  · rw [hf] at h
    simp at h
  · exact List.any_eq_true.mpr
      ⟨q, List.mem_of_find?_eq_some hf, by simpa using List.find?_some hf⟩

theorem jsMapDelete_any_self [BEq κ] (m : List (κ × α)) (k : κ) :
    (jsMapDelete m k).any (fun p => p.1 == k) = false := by
  rw [List.any_eq_false]
  intro x hx
  have hp := List.of_mem_filter hx
  simpa using hp

/-! ## `UserService` (web-socket services)

The service keeps `onlineUsers : Map<number, IUser>`.  In both
`onUserConnected` and `onUserDisconnected` the whole body sits in one
try/catch whose FIRST statement is the awaited durable `prisma.user.update`;
the in-memory registry mutation and the notification come after it, so a
durable-write failure (the `await` throwing) jumps to the catch and skips
them both. -/

namespace UserSvc

/-- The `IUser` record stored per online user. -/
structure IUser where
  socketId : String
  userId : Nat
  connectedAt : Nat
deriving DecidableEq, Repr

/-- The service state: the registry plus counters of the `USER_ONLINE` and
`USER_OFFLINE` notifications it has published. -/
structure USState where
  onlineUsers : List (Nat × IUser)
  onlineNotifies : Nat
  offlineNotifies : Nat
deriving DecidableEq, Repr

def usInit : USState := ⟨[], 0, 0⟩

/-- onUserConnected: the durable `isOnline=true` write runs first; only when
it succeeds do `onlineUsers.set(userId, ...)` and the `USER_ONLINE`
notification run; its failure is caught, logged, and skips both. -/
def onUserConnected (s : USState) (dbFails : Bool) (sock : String) (u : Nat) (t : Nat) :
    USState :=
  if dbFails then s
  else
    { onlineUsers := jsMapSet s.onlineUsers u ⟨sock, u, t⟩
      onlineNotifies := s.onlineNotifies + 1
      offlineNotifies := s.offlineNotifies }

/-- onUserDisconnected: early return unless the user is registered
(`if (!this.onlineUsers.has(userId)) return`); then the durable
`isOnline=false` write runs first, and only on success the entry is deleted
and `USER_OFFLINE` notified. -/
def onUserDisconnected (s : USState) (dbFails : Bool) (u : Nat) : USState :=
  if !(s.onlineUsers.any (fun p => p.1 == u)) then s
  else if dbFails then s
  else
    { onlineUsers := jsMapDelete s.onlineUsers u
      onlineNotifies := s.onlineNotifies
      offlineNotifies := s.offlineNotifies + 1 }

/-- isUserOnline of the service: `this.onlineUsers.has(userId)`. -/
def isUserOnline (s : USState) (u : Nat) : Bool :=
  s.onlineUsers.any (fun p => p.1 == u)

end UserSvc

namespace ChatRoom

/-- A live socket as seen at fan-out time in `/chatroom`: its identity and
whether `readyState === WebSocket.OPEN`. -/
structure RoomConn where
  connId : Nat
  readyStateOpen : Bool
deriving DecidableEq, Repr

/-- Observable outcome of one `handlePrivateMessage` call: the final `isRead`
value of the persisted row (`none` when persistence failed and nothing was
sent), and the deliveries — as pairs of the receiving socket and the `isRead`
field carried by the payload it received. -/
structure PMOutcome where
  dbIsRead : Option Bool
  receiverDeliveries : List (Nat × Bool)
  senderDeliveries : List (Nat × Bool)
deriving DecidableEq, Repr

/-- sendToUser of `/chatroom`: look the user up in `userConnections` and send
to each open socket of theirs; the Bool is the `isRead` field of the payload
being sent. -/
def roomSendToUser (registry : List (String × List RoomConn)) (u : String) (isRead : Bool) :
    List (Nat × Bool) :=
  match jsMapGet registry u with
  | some clients =>
    (clients.filter (fun c => c.readyStateOpen)).map (fun c => (c.connId, isRead))
  | none => []

/-- The handler's receiver-presence test,
`receiverConnection && receiverConnection.length > 0`. -/
def hasRegisteredConns (registry : List (String × List RoomConn)) (u : String) : Bool :=
  match jsMapGet registry u with
  | some clients => decide (0 < clients.length)
  | none => false

/-- handlePrivateMessage of `/chatroom`, step for step: the message row is
created with `isRead: false`; when the receiver has a registered connection
array with length > 0, the envelope — serialized while `isRead` is still
false — is sent to each open receiver socket, THEN the row is updated to
`isRead: true` and the in-memory envelope object's `isRead` set to true;
finally the sender's sockets get a confirmation whose `isRead` is the
receiver-presence test.  `persistFails` stands for any of the awaited
persistence calls before the sends throwing; the catch then sends nothing.  -/
def handlePrivateMessage (registry : List (String × List RoomConn))
    (senderId receiverId : String) (persistFails : Bool) : PMOutcome :=
  if persistFails then ⟨none, [], []⟩
  else
    let online := hasRegisteredConns registry receiverId
    ⟨some online,
     if online then
       (((jsMapGet registry receiverId).getD []).filter (fun c => c.readyStateOpen)).map
         (fun c => (c.connId, false))
     else [],
     roomSendToUser registry senderId online⟩

end ChatRoom

/-! ## `/chat` module (`сhat.ts`)

A flat chat room: `clients : Map<WebSocket, string>`; every parsed message is
re-wrapped and broadcast to every open client; a payload that fails
`JSON.parse` is only logged ("Ошибка парсинга сообщения") — no reply of any
kind is sent. -/

namespace PlainChat

/-- Inbound message shape of `сhat.ts`. -/
structure PlainMessageData where
  username : String
  message : String
deriving DecidableEq, Repr

/-- One entry of `clients`: the socket and its generated uuid. -/
structure PlainClient where
  connId : Nat
  uuid : String
  readyStateOpen : Bool
deriving DecidableEq, Repr

/-- JSON.stringify stand-in for the broadcast envelope built by the handler. -/
def serializePlainMsg (userId : String) (m : PlainMessageData) : String :=
  String.intercalate ";" ["message", m.username, m.message, userId]

/-- broadcast of `сhat.ts`: send the payload to every open client. -/
def plainBroadcast (clients : List PlainClient) (payload : String) : List (Nat × String) :=
  (clients.filter (fun c => c.readyStateOpen)).map (fun c => (c.connId, payload))

/-- The `ws.on('message')` handler of `сhat.ts`: a payload that parses is
re-wrapped and broadcast to all open clients; a payload that fails to parse
is only logged — nothing is sent to anyone, the originating connection
included — and the client map is untouched. -/
def plainChatOnMessage (clients : List PlainClient) (origin : PlainClient)
    (parsed : Option PlainMessageData) : List PlainClient × List (Nat × String) :=
  match parsed with
  | none => (clients, [])
  | some m => (clients, plainBroadcast clients (serializePlainMsg origin.uuid m))

end PlainChat

namespace UsersWS

theorem broadcastToAllExcept_excludes (conns : List UConn) (u : Nat) :
    ((broadcastToAllExcept conns u).all (fun c => c.userId != some u)) = true := by
  rw [List.all_eq_true]
  intro c hc
  unfold broadcastToAllExcept at hc
  have h1 : c ∈ List.filter (fun c => c.userId != some u) conns :=
    List.mem_of_mem_filter hc
  have h2 := List.of_mem_filter h1
  simpa using h2

end UsersWS

/-- C3.  In `handleSendMessage`, a failing `prisma.message.create` aborts the
fan-out: nothing is sent to the receiver and the sender is answered with an
error envelope instead; in general the receiver is sent the `new_message`
envelope only in the branch where the message was durably persisted (no
phantom messages).  The final conjunct runs the handler on a concrete valid
request against a store whose create call fails. -/
theorem usersws_no_phantom_messages :
    (∀ (db : UsersWS.UsersDb) (conns : List UsersWS.UConn)
        (msg : Option UsersWS.SendMessageData),
      (db.createFails = true →
        (UsersWS.handleSendMessage db conns msg).receiverSends = []
        ∧ (UsersWS.handleSendMessage db conns msg).senderErrored = true)
      ∧ ((UsersWS.handleSendMessage db conns msg).receiverSends.isEmpty
          || (UsersWS.handleSendMessage db conns msg).persisted) = true)
    ∧ UsersWS.handleSendMessage ⟨false, true, false⟩ [⟨1, some 2, 0, true, false⟩]
        (some ⟨"hi", 2, 3⟩) = ⟨false, [], true⟩ := by
  refine ⟨fun db conns msg => ⟨fun hc => ?_, ?_⟩, rfl⟩
  · cases msg with
    | none => exact ⟨rfl, rfl⟩
    | some m =>
      unfold UsersWS.handleSendMessage
      simp [hc]
  · cases msg with
    | none => rfl
    | some m =>
      unfold UsersWS.handleSendMessage
      rcases hup : db.updateFails with _ | _ <;>
        rcases hcr : db.createFails with _ | _ <;>
        rcases hcf : db.chatFindFails with _ | _ <;>
        simp [hup, hcr, hcf] <;>
        split <;>
        simp

/-- C5 counterexample.  In `UserService.onUserConnected` the durable write is
awaited FIRST; when it fails on the user's first connection, the in-memory
transition is skipped: the registry stays empty, `isUserOnline` is false and
no `USER_ONLINE` notification is published — refuting "the in-memory registry
mutation is performed first and a failure of the durable write does not roll
back or skip the in-memory transition". -/
theorem userservice_durable_first_cex :
    (UserSvc.onUserConnected UserSvc.usInit true "s1" 7 0).onlineUsers = []
    ∧ UserSvc.isUserOnline (UserSvc.onUserConnected UserSvc.usInit true "s1" 7 0) 7 = false
    ∧ (UserSvc.onUserConnected UserSvc.usInit true "s1" 7 0).onlineNotifies = 0 := by
  refine ⟨rfl, rfl, rfl⟩

/-- C5 amended.  In `UserService` the durable presence write gates the
in-memory transition: when it fails, `onUserConnected`/`onUserDisconnected`
leave the whole service state unchanged (the transition is skipped, not
rolled back); when it succeeds, the registry transition and exactly one
notification happen.  By contrast, in `setupChatWebSocket` the connection is
appended to the in-memory registry synchronously before the durable write,
and it stays registered when that write fails. -/
theorem userservice_durable_write_gates_registry :
    (∀ (s : UserSvc.USState) (sock : String) (u t : Nat),
        UserSvc.onUserConnected s true sock u t = s)
    ∧ (∀ (s : UserSvc.USState) (sock : String) (u t : Nat),
        UserSvc.isUserOnline (UserSvc.onUserConnected s false sock u t) u = true
        ∧ (UserSvc.onUserConnected s false sock u t).onlineNotifies = s.onlineNotifies + 1)
    ∧ (∀ (s : UserSvc.USState) (u : Nat), UserSvc.onUserDisconnected s true u = s)
    ∧ (∀ (s : UserSvc.USState) (u : Nat),
        UserSvc.isUserOnline (UserSvc.onUserDisconnected s false u) u = false)
    ∧ (∀ (conns : List ChatWS.UserConnection) (c : ChatWS.UserConnection)
        (db : ChatWS.ChatDb),
        (ChatWS.chatWsOnConnect conns c db true).map (fun x => x.connId)
          = conns.map (fun x => x.connId) ++ [c.connId]) := by
  refine ⟨fun s sock u t => rfl, fun s sock u t => ⟨?_, rfl⟩, fun s u => ?_,
    fun s u => ?_, fun conns c db => ?_⟩
  · exact jsMapSet_any_self s.onlineUsers u _
  · unfold UserSvc.onUserDisconnected
    by_cases hreg : s.onlineUsers.any (fun p => p.1 == u) <;> simp [hreg]
  · unfold UserSvc.onUserDisconnected UserSvc.isUserOnline
    by_cases hreg : s.onlineUsers.any (fun p => p.1 == u)
    · simp only [hreg, Bool.not_true, Bool.false_eq_true, if_false]
      exact jsMapDelete_any_self s.onlineUsers u
    · simp only [Bool.not_eq_true] at hreg
      simp [hreg]
  · cases hu : c.userId <;> simp [ChatWS.chatWsOnConnect, hu]

/-- C6 counterexample.  `setupUsersWebSocket.ts`'s `sendToUser` resolves the
target with `userConnections.find(...)`: with two open tabs of user 5, only
the first registered connection (id 21) receives the envelope; the second
open tab (id 22) gets nothing — refuting "each open tab's transport receives
the event". -/
theorem usersws_sendToUser_first_tab_only_cex :
    (⟨22, some 5, 0, true, false⟩ : UsersWS.UConn).readyStateOpen = true
    ∧ UsersWS.sendToUser
        [⟨21, some 5, 0, true, false⟩, ⟨22, some 5, 0, true, false⟩] 5 "m"
      = [(21, "m")] := by
  refine ⟨rfl, rfl⟩

/-- C6 amended.  The two modules differ: `setupChatWebSocket.ts`'s
`sendToUser` loops over ALL connections of the user and delivers the (once-)
serialized envelope to every open, working one — the multi-tab behaviour —
while `setupUsersWebSocket.ts`'s `sendToUser` sends to at most one
connection, the first whose `userId` matches, even when the user has several
open tabs. -/
theorem sendToUser_multitab_semantics :
    (∀ (conns : List ChatWS.UserConnection) (u : Nat) (m : ChatWS.BroadcastChatMessage),
      ChatWS.sendToUser conns u m
        = (((conns.filter (ChatWS.userDeliverable u)).length != 0),
           (conns.filter (ChatWS.userDeliverable u)).map
             (fun c => (c.connId, ChatWS.serializeChatMsg m))))
    ∧ (∀ (conns : List UsersWS.UConn) (u : Nat) (payload : String),
        (UsersWS.sendToUser conns u payload).length ≤ 1) := by
  constructor
  · intro conns u m
    unfold ChatWS.sendToUser
    rw [ChatWS.sendToUserLoop_eq]
  · intro conns u payload
    unfold UsersWS.sendToUser
    rcases hfind : conns.find? (fun c => c.userId == some u) with _ | c
    · rw [hfind]
      simp
    · rw [hfind]
      by_cases hopen : c.readyStateOpen
      · by_cases ht : c.sendThrows <;> simp [hopen, ht, UsersWS.uSend]
      · simp [hopen]

/-- C7 counterexample.  In `сhat.ts` a payload that fails to parse is only
logged: with two open clients and a malformed inbound payload from client 0,
the handler sends nothing at all — no error envelope reaches the originating
connection — refuting "the handler responds with an error-typed envelope sent
to the originating connection". -/
theorem plainchat_malformed_no_error_reply_cex :
    PlainChat.plainChatOnMessage
        [⟨0, "u0", true⟩, ⟨1, "u1", true⟩] ⟨0, "u0", true⟩ none
      = ([⟨0, "u0", true⟩, ⟨1, "u1", true⟩], []) := by
  rfl

/-- C7 amended.  Malformed inbound payloads are isolated to the originating
connection in both websocket chat handlers, but only `setupChatWebSocket.ts`
answers with an error envelope: there the registry is untouched, every
delivery targets the originating connection only, and when the originator's
socket is open and working it receives exactly the "Invalid message format"
error envelope; in `сhat.ts` the parse failure is merely logged — nothing is
sent to anyone and the client map is unchanged. -/
theorem malformed_envelope_isolated :
    (∀ (conns : List ChatWS.UserConnection) (origin : ChatWS.UserConnection) (t : Nat),
      (ChatWS.chatWsOnMessage conns origin none t).1 = conns
      ∧ ((ChatWS.chatWsOnMessage conns origin none t).2.all
          (fun d => d.1 == origin.connId)) = true)
    ∧ (∀ (origin : ChatWS.UserConnection) (t : Nat)
        (conns : List ChatWS.UserConnection),
        origin.readyStateOpen = true → origin.sendThrows = false →
        (ChatWS.chatWsOnMessage conns origin none t).2
          = [(origin.connId, ChatWS.serializeChatMsg (ChatWS.invalidFormatMessage t))])
    ∧ (∀ (clients : List PlainChat.PlainClient) (origin : PlainChat.PlainClient),
        PlainChat.plainChatOnMessage clients origin none = (clients, [])) := by
  refine ⟨fun conns origin t => ?_, fun origin t conns hopen hthrow => ?_,
    fun clients origin => rfl⟩
  · unfold ChatWS.chatWsOnMessage
    by_cases h : origin.readyStateOpen && !origin.sendThrows <;> simp [h]
  · unfold ChatWS.chatWsOnMessage
    simp [hopen, hthrow]

/-- The concrete registry of the C9 counterexample: the sender "1" and the
receiver "2" each have one open socket. -/
def roomRegistryEx : List (String × List ChatRoom.RoomConn) :=
  [("1", [⟨10, true⟩]), ("2", [⟨20, true⟩])]

/-- C9 counterexample.  With the receiver online (one open registered
socket), `handlePrivateMessage` does update the persisted row to
`isRead: true` and the sender's confirmation carries `isRead: true`, but the
receiver's socket receives the envelope that was serialized BEFORE the
update: its `isRead` field is false — refuting "both the receiver's
connections and the sender receive the envelope with isRead=true". -/
theorem chatroom_read_receipt_cex :
    (ChatRoom.handlePrivateMessage roomRegistryEx "1" "2" false).receiverDeliveries
      = [(20, false)]
    ∧ (ChatRoom.handlePrivateMessage roomRegistryEx "1" "2" false).dbIsRead = some true
    ∧ (ChatRoom.handlePrivateMessage roomRegistryEx "1" "2" false).senderDeliveries
      = [(10, true)] := by
  refine ⟨rfl, rfl, rfl⟩

/-- C9 amended.  Whenever the receiver has at least one registered connection
at send time, the just-persisted message is updated to `isRead=true` in
durable storage and the sender's sockets receive the confirmation with
`isRead=true` without any read receipt from the receiver — but the
receiver's own sockets receive the envelope serialized before that update,
carrying `isRead=false`.  (With no registered receiver connection the row
stays unread and the sender's confirmation carries `isRead=false`.) -/
theorem chatroom_private_message_read_semantics :
    ∀ (registry : List (String × List ChatRoom.RoomConn)) (senderId receiverId : String),
      ((ChatRoom.handlePrivateMessage registry senderId receiverId false).receiverDeliveries.all
        (fun d => d.2 == false)) = true
      ∧ ((ChatRoom.handlePrivateMessage registry senderId receiverId false).senderDeliveries.all
        (fun d => d.2 == ChatRoom.hasRegisteredConns registry receiverId)) = true
      ∧ (ChatRoom.handlePrivateMessage registry senderId receiverId false).dbIsRead
          = some (ChatRoom.hasRegisteredConns registry receiverId) := by
  intro registry senderId receiverId
  unfold ChatRoom.handlePrivateMessage
  refine ⟨?_, ?_, rfl⟩
  · simp only [Bool.false_eq_true, if_false]
    by_cases honline : ChatRoom.hasRegisteredConns registry receiverId
    · simp [honline, List.all_eq_true]
    · simp [honline]
  · simp only [Bool.false_eq_true, if_false]
    unfold ChatRoom.roomSendToUser
    rcases jsMapGet registry senderId with _ | clients
    · rfl
    · simp [List.all_eq_true]

/-- C10.  In `setupUsersWebSocket.ts` every `user_online` and `user_offline`
presence envelope produced by a connect or disconnect goes through
`broadcastToAllExcept(affectedUserId, ...)`: every recipient is a connection
whose `userId` differs from the affected user's id, so no connection of the
affected user ever receives that user's own presence event. -/
theorem usersws_presence_excludes_self :
    (∀ (conns : List UsersWS.UConn) (u : Nat) (dbFails : Bool),
      ((UsersWS.onlinePresenceRecipients conns u dbFails).all
        (fun c => c.userId != some u)) = true)
    ∧ (∀ (conns : List UsersWS.UConn) (u : Nat) (dbFails : Bool),
      ((UsersWS.offlinePresenceRecipients conns (some u) dbFails).all
        (fun c => c.userId != some u)) = true) := by
  constructor <;> intro conns u dbFails <;> cases dbFails
  · simpa [UsersWS.onlinePresenceRecipients] using
      UsersWS.broadcastToAllExcept_excludes conns u
  · rfl
  · simpa [UsersWS.offlinePresenceRecipients] using
      UsersWS.broadcastToAllExcept_excludes conns u
  · rfl
